import Mathlib

/-!
Shallow embedding of the sales-ledger core of the e-commerce platform
(src/business_app.py and src/app.py).

The SQLite store is modelled as three lists of rows plus the next
AUTOINCREMENT id of each table.  Rows are kept in insertion order and a
fetchone after a SELECT without ORDER BY returns the first matching row
in that order.  Monetary values (Python floats) are modelled as exact
rationals; quantities, stock counts and order counts (SQLite INTEGER,
Python int) are modelled as integers.

The schema created by business_app.init_db declares
CHECK(stock >= 0) on inventory and UNIQUE on customers.email; in
main_app.py that init_db runs first, so its schema governs the store.
The inventory table declares no uniqueness on product, so
INSERT OR REPLACE can never hit a conflict and always inserts a new
row, and the UPDATE in add_sale touches every row of the product.
A CHECK violation raises sqlite3.Error, which add_sale catches after
closing the connection without commit, rolling back every pending
write of the call.
-/

namespace ECommerce

structure Customer where
  id : Nat
  name : String
  email : String
  orders : Int
  is_active : Int
  deriving DecidableEq

structure InvRow where
  id : Nat
  product : String
  stock : Int
  last_updated : String
  deriving DecidableEq

structure Sale where
  id : Nat
  sale_date : String
  product : String
  quantity : Int
  total_selling_price : ℚ
  total_buying_price : ℚ
  revenue : ℚ
  customer_id : Nat
  deriving DecidableEq

structure Store where
  sales : List Sale
  inventory : List InvRow
  customers : List Customer
  nextSaleId : Nat
  nextInvId : Nat
  nextCustomerId : Nat
  deriving DecidableEq

/-- The store right after the tables are created: all tables empty,
AUTOINCREMENT counters at 1. -/
def emptyStore : Store := ⟨[], [], [], 1, 1, 1⟩

/-- The distinct failure reports of add_sale (business_app.py lines
50-67 and 83-86): one per st.error message. -/
inductive SaleErr where
  | unknownCustomer
  | unknownProduct
  | insufficientStock (available requested : Int)
  | databaseError
  deriving DecidableEq

/-- SELECT id FROM customers WHERE id = ? followed by fetchone. -/
def findCustomer (st : Store) (cid : Nat) : Option Customer :=
  st.customers.find? (fun c => c.id == cid)

/-- SELECT stock FROM inventory WHERE product = ? followed by fetchone. -/
def findInvRow (st : Store) (p : String) : Option InvRow :=
  st.inventory.find? (fun r => r.product == p)

/-- business_app.add_sale (lines 46-86).  Validates the customer, the
product and the stock level in that order; on success inserts the sale
row, decrements the stock of every inventory row of the product and
increments the customer order count, all under one commit.  If the
UPDATE would drive the stock of some row of the product below 0, the
CHECK constraint raises and the whole call is rolled back. -/
def add_sale (st : Store) (product : String) (quantity : Int)
    (selling_price buying_price : ℚ) (customer_id : Nat) (sale_date : String) :
    Store × Except SaleErr Unit :=
  match findCustomer st customer_id with
  | none => (st, .error .unknownCustomer)
  | some _ =>
    match findInvRow st product with
    | none => (st, .error .unknownProduct)
    | some stock_result =>
      if stock_result.stock < quantity then
        (st, .error (.insufficientStock stock_result.stock quantity))
      else if st.inventory.any (fun r => r.product == product && decide (r.stock - quantity < 0)) then
        (st, .error .databaseError)
      else
        ({ st with
            sales := st.sales ++
              [⟨st.nextSaleId, sale_date, product, quantity,
                (quantity : ℚ) * selling_price, (quantity : ℚ) * buying_price,
                (quantity : ℚ) * selling_price - (quantity : ℚ) * buying_price,
                customer_id⟩],
            inventory := st.inventory.map (fun r =>
              if r.product == product then
                { r with stock := r.stock - quantity, last_updated := sale_date }
              else r),
            customers := st.customers.map (fun c =>
              if c.id == customer_id then { c with orders := c.orders + 1 } else c),
            nextSaleId := st.nextSaleId + 1 },
          .ok ())

/-- business_app.add_inventory (lines 88-104).  Rejects negative stock;
otherwise INSERT OR REPLACE inserts a fresh row, since no declared
uniqueness on product can make it replace anything. -/
def add_inventory (st : Store) (product : String) (stock : Int)
    (last_updated : String) : Store × Bool :=
  if stock < 0 then (st, false)
  else
    ({ st with
        inventory := st.inventory ++ [⟨st.nextInvId, product, stock, last_updated⟩],
        nextInvId := st.nextInvId + 1 },
      true)

/-- business_app.add_customer (lines 106-125).  Rejects an email that
is already present, returning None; otherwise inserts the row and
returns the generated id (lastrowid). -/
def add_customer (st : Store) (name email : String) (orders is_active : Int) :
    Store × Option Nat :=
  if st.customers.any (fun c => c.email == email) then (st, none)
  else
    ({ st with
        customers := st.customers ++
          [⟨st.nextCustomerId, name, email, orders, is_active⟩],
        nextCustomerId := st.nextCustomerId + 1 },
      some st.nextCustomerId)

/-- The KPI record computed by app.compute_metrics. -/
structure Metrics where
  total_revenue : ℚ
  avg_order_value : ℚ
  total_quantity : Int
  churn_rate : ℚ
  total_customers : Nat
  profit_margin : ℚ
  deriving DecidableEq

/-- app.compute_metrics (lines 80-92), over the full sales and
customer extents.  Each division is guarded by the corresponding
positivity test, exactly as in the source. -/
def compute_metrics (sales_df : List Sale) (customer_df : List Customer) : Metrics :=
  let total_customers := customer_df.length
  let active_customers := (customer_df.filter (fun c => c.is_active == 1)).length
  let churn_rate : ℚ :=
    if total_customers > 0 then
      ((total_customers : ℚ) - (active_customers : ℚ)) / (total_customers : ℚ) * 100
    else 0
  { total_revenue := (sales_df.map Sale.revenue).sum
    avg_order_value :=
      if sales_df.isEmpty then 0
      else (sales_df.map Sale.total_selling_price).sum / (sales_df.length : ℚ)
    total_quantity := (sales_df.map Sale.quantity).sum
    churn_rate := churn_rate
    total_customers := total_customers
    profit_margin :=
      if (sales_df.map Sale.total_selling_price).sum > 0 then
        (sales_df.map Sale.revenue).sum / (sales_df.map Sale.total_selling_price).sum * 100
      else 0 }

/-- True on the Python return value True of add_sale, false on False. -/
def okBool : Except SaleErr Unit → Bool
  | .ok _ => true
  | .error _ => false

/-- One row of the sales CSV accepted by the import tab
(business_app.py line 209: product,quantity,selling_price,buying_price,customer_id). -/
structure SaleRow where
  product : String
  quantity : Int
  selling_price : ℚ
  buying_price : ℚ
  customer_id : Nat
  deriving DecidableEq

/-- The sales-import loop (business_app.py lines 213-217): each row is
fed to add_sale on the store left by the previous row and its boolean
outcome is recorded; no outcome stops the loop.  The timestamp argument
stands for the per-call current time, which no outcome depends on. -/
def import_sales : Store → List SaleRow → String → Store × List Bool
  | st, [], _ => (st, [])
  | st, row :: rest, d =>
    let step := add_sale st row.product row.quantity row.selling_price
      row.buying_price row.customer_id d
    let next := import_sales step.1 rest d
    (next.1, okBool step.2 :: next.2)

/-- Stores reachable from the fresh database through the three mutating
operations of the core. -/
inductive Reach : Store → Prop where
  | init : Reach emptyStore
  | sale (p : String) (q : Int) (sp bp : ℚ) (cid : Nat) (d : String)
      {st : Store} : Reach st → Reach (add_sale st p q sp bp cid d).1
  | inv (p : String) (s : Int) (d : String) {st : Store} :
      Reach st → Reach (add_inventory st p s d).1
  | cust (n e : String) (o ia : Int) {st : Store} :
      Reach st → Reach (add_customer st n e o ia).1

/-- A column of a CREATE TABLE statement, with the two constraints the
specification talks about. -/
structure ColDef where
  name : String
  uniqueCol : Bool
  checkNonneg : Bool
  deriving DecidableEq

/-- A plain column without constraints. -/
def col (n : String) : ColDef := ⟨n, false, false⟩

structure TableDef where
  name : String
  cols : List ColDef
  deriving DecidableEq

/-- CREATE TABLE IF NOT EXISTS: a no-op when a table of that name is
already present, whatever its columns. -/
def createTableIfNotExists (db : List TableDef) (t : TableDef) : List TableDef :=
  if db.any (fun u => u.name == t.name) then db else db ++ [t]

/-- The sales table, identical in both files. -/
def salesTable : TableDef :=
  ⟨"sales", [col "id", col "sale_date", col "product", col "quantity",
    col "total_selling_price", col "total_buying_price", col "revenue",
    col "customer_id"]⟩

/-- inventory as created by business_app.init_db (line 29):
stock INTEGER CHECK(stock >= 0). -/
def inventoryTableBusiness : TableDef :=
  ⟨"inventory", [col "id", col "product", ⟨"stock", false, true⟩,
    col "last_updated"]⟩

/-- customers as created by business_app.init_db (line 38):
email TEXT UNIQUE. -/
def customersTableBusiness : TableDef :=
  ⟨"customers", [col "id", col "name", ⟨"email", true, false⟩,
    col "orders", col "is_active"]⟩

/-- inventory as created by app.init_db (lines 27-34): no CHECK. -/
def inventoryTableApp : TableDef :=
  ⟨"inventory", [col "id", col "product", col "stock", col "last_updated"]⟩

/-- customers as created by app.init_db (lines 36-44): no UNIQUE. -/
def customersTableApp : TableDef :=
  ⟨"customers", [col "id", col "name", col "email", col "orders",
    col "is_active"]⟩

/-- business_app.init_db (lines 8-44). -/
def init_db_business (db : List TableDef) : List TableDef :=
  createTableIfNotExists
    (createTableIfNotExists (createTableIfNotExists db salesTable)
      inventoryTableBusiness)
    customersTableBusiness

/-- app.init_db (lines 10-46). -/
def init_db_app (db : List TableDef) : List TableDef :=
  createTableIfNotExists
    (createTableIfNotExists (createTableIfNotExists db salesTable)
      inventoryTableApp)
    customersTableApp

/-! ### Concrete stores used to instantiate the theorems -/

/-- One customer, product Phone with stock 10, fresh ledger. -/
def wStore : Store :=
  ⟨[], [⟨1, "Phone", 10, "t0"⟩], [⟨1, "Alice", "alice@shop.com", 0, 1⟩], 1, 2, 2⟩

/-- One customer, empty inventory. -/
def wNoProd : Store :=
  ⟨[], [], [⟨1, "Alice", "alice@shop.com", 0, 1⟩], 1, 1, 2⟩

/-- One customer already registered under alice@shop.com. -/
def wDup : Store :=
  ⟨[], [], [⟨1, "Alice", "alice@shop.com", 0, 1⟩], 1, 1, 2⟩

/-- One customer, product Phone with stock 5. -/
def negQtyStore : Store :=
  ⟨[], [⟨1, "Phone", 5, "t0"⟩], [⟨1, "Bob", "bob@shop.com", 0, 1⟩], 1, 2, 2⟩

/-- The store built from the fresh database by registering Alice and
then stocking 10 Phones, through the core operations themselves. -/
def wReach : Store :=
  (add_inventory (add_customer emptyStore "Alice" "alice@shop.com" 0 1).1
    "Phone" 10 "t0").1

/-! ### Characterization lemmas for add_sale -/

/-- Missing customer: first validation fails. -/
lemma add_sale_no_customer {st : Store} {cid : Nat} (p : String) (q : Int)
    (sp bp : ℚ) (d : String) (h : findCustomer st cid = none) :
    add_sale st p q sp bp cid d = (st, .error .unknownCustomer) := by
  simp [add_sale, h]

/-- Missing product: second validation fails. -/
lemma add_sale_no_product {st : Store} {cid : Nat} {p : String} {c : Customer}
    (q : Int) (sp bp : ℚ) (d : String)
    (hc : findCustomer st cid = some c) (hp : findInvRow st p = none) :
    add_sale st p q sp bp cid d = (st, .error .unknownProduct) := by
  simp [add_sale, hc, hp]

/-- Insufficient stock on the fetched row: third validation fails. -/
lemma add_sale_insufficient {st : Store} {cid : Nat} {p : String} {c : Customer}
    {r : InvRow} {q : Int} (sp bp : ℚ) (d : String)
    (hc : findCustomer st cid = some c) (hp : findInvRow st p = some r)
    (hlt : r.stock < q) :
    add_sale st p q sp bp cid d = (st, .error (.insufficientStock r.stock q)) := by
  simp [add_sale, hc, hp, hlt]

/-- All validations pass and no row of the product would go negative:
the three mutations are applied under one commit. -/
lemma add_sale_ok {st : Store} {cid : Nat} {p : String} {c : Customer}
    {r : InvRow} {q : Int} (sp bp : ℚ) (d : String)
    (hc : findCustomer st cid = some c) (hp : findInvRow st p = some r)
    (hge : ¬ r.stock < q)
    (hany : (st.inventory.any
      (fun r => r.product == p && decide (r.stock - q < 0))) = false) :
    add_sale st p q sp bp cid d =
      ({ st with
          sales := st.sales ++
            [⟨st.nextSaleId, d, p, q, (q : ℚ) * sp, (q : ℚ) * bp,
              (q : ℚ) * sp - (q : ℚ) * bp, cid⟩],
          inventory := st.inventory.map (fun r =>
            if r.product == p then
              { r with stock := r.stock - q, last_updated := d }
            else r),
          customers := st.customers.map (fun c =>
            if c.id == cid then { c with orders := c.orders + 1 } else c),
          nextSaleId := st.nextSaleId + 1 },
        .ok ()) := by
  simp only [List.any_eq_false, Bool.and_eq_true, beq_iff_eq, decide_eq_true_eq,
    not_and, not_lt] at hany
  simp [add_sale, hc, hp, hge]
  intro x hx hxp
  have h2 := hany x hx hxp
  omega

/-- On every failing outcome the store is returned untouched. -/
lemma add_sale_error_state {st : Store} {cid : Nat} {p : String} {q : Int}
    {sp bp : ℚ} {d : String}
    (h : (add_sale st p q sp bp cid d).2 ≠ .ok ()) :
    (add_sale st p q sp bp cid d).1 = st := by
  unfold add_sale
  unfold add_sale at h
  cases hc : findCustomer st cid <;> simp [hc] at h ⊢
  cases hp : findInvRow st p <;> simp [hp] at h ⊢
  split <;> simp_all
  split <;> simp_all

/-- A successful outcome forces the success shape of the new store. -/
lemma add_sale_ok_state {st : Store} {cid : Nat} {p : String} {q : Int}
    {sp bp : ℚ} {d : String}
    (h : (add_sale st p q sp bp cid d).2 = .ok ()) :
    (add_sale st p q sp bp cid d).1 =
      { st with
          sales := st.sales ++
            [⟨st.nextSaleId, d, p, q, (q : ℚ) * sp, (q : ℚ) * bp,
              (q : ℚ) * sp - (q : ℚ) * bp, cid⟩],
          inventory := st.inventory.map (fun r =>
            if r.product == p then
              { r with stock := r.stock - q, last_updated := d }
            else r),
          customers := st.customers.map (fun c =>
            if c.id == cid then { c with orders := c.orders + 1 } else c),
          nextSaleId := st.nextSaleId + 1 } := by
  unfold add_sale
  unfold add_sale at h
  cases hc : findCustomer st cid <;> simp [hc] at h ⊢
  cases hp : findInvRow st p <;> simp [hp] at h ⊢
  split <;> simp_all
  split <;> simp_all

/-- A successful outcome means the CHECK guard saw no row of the
product that the decrement would drive below zero. -/
lemma add_sale_ok_guard {st : Store} {cid : Nat} {p : String} {q : Int}
    {sp bp : ℚ} {d : String}
    (h : (add_sale st p q sp bp cid d).2 = .ok ()) :
    (st.inventory.any
      (fun r => r.product == p && decide (r.stock - q < 0))) = false := by
  unfold add_sale at h
  cases hc : findCustomer st cid <;> simp [hc] at h
  cases hp : findInvRow st p <;> simp [hp] at h
  split at h <;> simp_all
  split at h <;> simp_all

/-! ### Invariant lemmas -/

/-- add_customer never touches the inventory table. -/
lemma add_customer_inventory (st : Store) (n e : String) (o ia : Int) :
    (add_customer st n e o ia).1.inventory = st.inventory := by
  unfold add_customer
  split <;> rfl

/-- add_inventory preserves nonnegativity of every stock cell. -/
lemma add_inventory_stock_nonneg {st : Store} (p : String) (s : Int) (d : String)
    (h : ∀ r ∈ st.inventory, 0 ≤ r.stock) :
    ∀ r ∈ (add_inventory st p s d).1.inventory, 0 ≤ r.stock := by
  unfold add_inventory
  split
  · exact h
  · intro r hr
    simp at hr
    rcases hr with hr | hr
    · exact h r hr
    · subst hr
      simp
      omega

/-- add_sale preserves nonnegativity of every stock cell: failures leave
the table alone and the CHECK guard screens every updated row. -/
lemma add_sale_stock_nonneg {st : Store} (p : String) (q : Int) (sp bp : ℚ)
    (cid : Nat) (d : String) (h : ∀ r ∈ st.inventory, 0 ≤ r.stock) :
    ∀ r ∈ (add_sale st p q sp bp cid d).1.inventory, 0 ≤ r.stock := by
  by_cases hok : (add_sale st p q sp bp cid d).2 = .ok ()
  · have hguard := add_sale_ok_guard hok
    rw [add_sale_ok_state hok]
    simp only [List.any_eq_false, Bool.and_eq_true, beq_iff_eq,
      decide_eq_true_eq, not_and, not_lt] at hguard
    intro r hr
    simp only [List.mem_map] at hr
    obtain ⟨r0, hr0, rfl⟩ := hr
    by_cases hp : r0.product = p
    · simp [hp]
      have := hguard r0 hr0 hp
      omega
    · simp [hp]
      exact h r0 hr0
  · rw [add_sale_error_state hok]
    exact h

/-- Every reachable store satisfies the stock invariant. -/
lemma reach_stock_nonneg {st : Store} (h : Reach st) :
    ∀ r ∈ st.inventory, 0 ≤ r.stock := by
  induction h with
  | init => intro r hr; simp [emptyStore] at hr
  | sale p q sp bp cid d _ ih => exact add_sale_stock_nonneg p q sp bp cid d ih
  | inv p s d _ ih => exact add_inventory_stock_nonneg p s d ih
  | cust n e o ia _ ih =>
      rw [add_customer_inventory]
      exact ih

/-- wReach is built by core operations, hence reachable. -/
lemma wReach_reachable : Reach wReach :=
  Reach.inv "Phone" 10 "t0" (Reach.cust "Alice" "alice@shop.com" 0 1 Reach.init)

/-! ### Schema lemmas -/

/-- After creation the table name is present. -/
lemma createTable_mem (db : List TableDef) (t : TableDef) :
    ((createTableIfNotExists db t).any (fun u => u.name == t.name)) = true := by
  unfold createTableIfNotExists
  split
  · assumption
  · simp

/-- Creation preserves every table name already present. -/
lemma createTable_mono (db : List TableDef) (t : TableDef) (n : String)
    (h : (db.any (fun u => u.name == n)) = true) :
    ((createTableIfNotExists db t).any (fun u => u.name == n)) = true := by
  unfold createTableIfNotExists
  split
  · exact h
  · simp [List.any_append, h]

/-- Creating an already-present table changes nothing. -/
lemma createTable_present (db : List TableDef) (t : TableDef)
    (h : (db.any (fun u => u.name == t.name)) = true) :
    createTableIfNotExists db t = db := by
  unfold createTableIfNotExists
  simp [h]

/-- business_app.init_db is idempotent. -/
lemma init_db_business_idem (db : List TableDef) :
    init_db_business (init_db_business db) = init_db_business db := by
  have hs : ((init_db_business db).any
      (fun u => u.name == salesTable.name)) = true :=
    createTable_mono _ _ _ (createTable_mono _ _ _ (createTable_mem _ _))
  have hi : ((init_db_business db).any
      (fun u => u.name == inventoryTableBusiness.name)) = true :=
    createTable_mono _ _ _ (createTable_mem _ _)
  have hcu : ((init_db_business db).any
      (fun u => u.name == customersTableBusiness.name)) = true :=
    createTable_mem _ _
  show createTableIfNotExists (createTableIfNotExists
      (createTableIfNotExists (init_db_business db) salesTable)
      inventoryTableBusiness) customersTableBusiness = init_db_business db
  rw [createTable_present _ _ hs, createTable_present _ _ hi,
    createTable_present _ _ hcu]

/-- app.init_db is idempotent. -/
lemma init_db_app_idem (db : List TableDef) :
    init_db_app (init_db_app db) = init_db_app db := by
  have hs : ((init_db_app db).any
      (fun u => u.name == salesTable.name)) = true :=
    createTable_mono _ _ _ (createTable_mono _ _ _ (createTable_mem _ _))
  have hi : ((init_db_app db).any
      (fun u => u.name == inventoryTableApp.name)) = true :=
    createTable_mono _ _ _ (createTable_mem _ _)
  have hcu : ((init_db_app db).any
      (fun u => u.name == customersTableApp.name)) = true :=
    createTable_mem _ _
  show createTableIfNotExists (createTableIfNotExists
      (createTableIfNotExists (init_db_app db) salesTable)
      inventoryTableApp) customersTableApp = init_db_app db
  rw [createTable_present _ _ hs, createTable_present _ _ hi,
    createTable_present _ _ hcu]

/-! ### Claim theorems -/

/-- C1: when the customer exists, the product exists in inventory and the
stock of the product covers the quantity, add_sale succeeds and applies
exactly these effects: a sale row is appended with
total_selling_price = quantity * unit selling price,
total_buying_price = quantity * unit buying price and
revenue = total_selling_price - total_buying_price; every inventory row
of the product has its stock decremented by quantity and its
last_updated set to the sale timestamp; and the customer order count is
incremented by 1. -/
theorem add_sale_success_effects (st : Store) (p : String) (q : Int)
    (sp bp : ℚ) (cid : Nat) (d : String)
    (hc : (findCustomer st cid).isSome = true)
    (hp : (findInvRow st p).isSome = true)
    (hs : ∀ r ∈ st.inventory, r.product = p → q ≤ r.stock) :
    (add_sale st p q sp bp cid d).2 = .ok () ∧
    (add_sale st p q sp bp cid d).1.sales = st.sales ++
      [⟨st.nextSaleId, d, p, q, (q : ℚ) * sp, (q : ℚ) * bp,
        (q : ℚ) * sp - (q : ℚ) * bp, cid⟩] ∧
    (add_sale st p q sp bp cid d).1.inventory = st.inventory.map (fun r =>
      if r.product == p then
        { r with stock := r.stock - q, last_updated := d }
      else r) ∧
    (add_sale st p q sp bp cid d).1.customers = st.customers.map (fun c =>
      if c.id == cid then { c with orders := c.orders + 1 } else c) := by
  obtain ⟨c, hc⟩ := Option.isSome_iff_exists.mp hc
  obtain ⟨r, hr⟩ := Option.isSome_iff_exists.mp hp
  have hrmem := List.mem_of_find?_eq_some hr
  have hrp : r.product = p := by
    have := List.find?_some hr
    simpa using this
  have hge : ¬ r.stock < q := not_lt.mpr (hs r hrmem hrp)
  have hany : (st.inventory.any
      (fun r => r.product == p && decide (r.stock - q < 0))) = false := by
    simp only [List.any_eq_false, Bool.and_eq_true, beq_iff_eq,
      decide_eq_true_eq, not_and, not_lt]
    intro x hx hxp
    have := hs x hx hxp
    omega
  rw [add_sale_ok sp bp d hc hr hge hany]
  exact ⟨rfl, rfl, rfl, rfl⟩

/-- C1 witness: the spec scenario, Phone at stock 10 sold 3 times at
unit prices 20000 and 15000 by customer 1. -/
theorem add_sale_success_effects_witness :
    ((findCustomer wStore 1).isSome = true ∧
      (findInvRow wStore "Phone").isSome = true ∧
      (∀ r ∈ wStore.inventory, r.product = "Phone" → (3 : Int) ≤ r.stock)) ∧
    ((add_sale wStore "Phone" 3 20000 15000 1 "t1").2 = .ok () ∧
      (add_sale wStore "Phone" 3 20000 15000 1 "t1").1.sales = wStore.sales ++
        [⟨wStore.nextSaleId, "t1", "Phone", 3, ((3 : Int) : ℚ) * 20000,
          ((3 : Int) : ℚ) * 15000,
          ((3 : Int) : ℚ) * 20000 - ((3 : Int) : ℚ) * 15000, 1⟩] ∧
      (add_sale wStore "Phone" 3 20000 15000 1 "t1").1.inventory =
        wStore.inventory.map (fun r =>
          if r.product == "Phone" then
            { r with stock := r.stock - 3, last_updated := "t1" }
          else r) ∧
      (add_sale wStore "Phone" 3 20000 15000 1 "t1").1.customers =
        wStore.customers.map (fun c =>
          if c.id == 1 then { c with orders := c.orders + 1 } else c)) :=
  ⟨⟨by decide, by decide, by decide⟩,
    add_sale_success_effects wStore "Phone" 3 20000 15000 1 "t1"
      (by decide) (by decide) (by decide)⟩

/-- C2: add_sale checks its preconditions in the fixed order customer,
product, stock; the first failing check determines the reported error
and every failing outcome returns the store untouched. -/
theorem add_sale_error_spec (st : Store) (p : String) (q : Int)
    (sp bp : ℚ) (cid : Nat) (d : String) :
    (findCustomer st cid = none →
      add_sale st p q sp bp cid d = (st, .error .unknownCustomer)) ∧
    (∀ c, findCustomer st cid = some c → findInvRow st p = none →
      add_sale st p q sp bp cid d = (st, .error .unknownProduct)) ∧
    (∀ c r, findCustomer st cid = some c → findInvRow st p = some r →
      r.stock < q →
      add_sale st p q sp bp cid d =
        (st, .error (.insufficientStock r.stock q))) ∧
    (∀ e, (add_sale st p q sp bp cid d).2 = .error e →
      (add_sale st p q sp bp cid d).1 = st) := by
  refine ⟨fun h => add_sale_no_customer p q sp bp d h,
    fun c hc hp => add_sale_no_product q sp bp d hc hp,
    fun c r hc hr hlt => add_sale_insufficient sp bp d hc hr hlt,
    fun e he => add_sale_error_state (by simp [he])⟩

/-- C2 witness: the three failure modes at concrete stores, including
the spec scenario InsufficientStock(10, 11), each leaving the store
untouched. -/
theorem add_sale_error_spec_witness :
    add_sale emptyStore "Phone" 1 1 1 1 "t" =
      (emptyStore, .error .unknownCustomer) ∧
    add_sale wNoProd "Phone" 1 1 1 1 "t" =
      (wNoProd, .error .unknownProduct) ∧
    add_sale wStore "Phone" 11 20000 15000 1 "t" =
      (wStore, .error (.insufficientStock 10 11)) ∧
    (add_sale wStore "Phone" 11 20000 15000 1 "t").1 = wStore := by
  have h1 := (add_sale_error_spec emptyStore "Phone" 1 1 1 1 "t").1 (by decide)
  have h2 := (add_sale_error_spec wNoProd "Phone" 1 1 1 1 "t").2.1
    ⟨1, "Alice", "alice@shop.com", 0, 1⟩ (by decide) (by decide)
  have h3 := (add_sale_error_spec wStore "Phone" 11 20000 15000 1 "t").2.2.1
    ⟨1, "Alice", "alice@shop.com", 0, 1⟩ ⟨1, "Phone", 10, "t0"⟩
    (by decide) (by decide) (by decide)
  have h4 := (add_sale_error_spec wStore "Phone" 11 20000 15000 1 "t").2.2.2
    (.insufficientStock 10 11) (by rw [h3])
  exact ⟨h1, h2, h3, h4⟩

/-- C3: from any reachable store, add_sale keeps every stock cell
nonnegative; a request whose quantity exceeds the fetched stock is
rejected with the store unchanged; and a successful sale decremented
each row of the product by at most the stock it held. -/
theorem add_sale_stock_invariant (st : Store) (h : Reach st) (p : String)
    (q : Int) (sp bp : ℚ) (cid : Nat) (d : String) :
    (∀ r ∈ (add_sale st p q sp bp cid d).1.inventory, 0 ≤ r.stock) ∧
    (∀ r, findInvRow st p = some r → r.stock < q →
      (add_sale st p q sp bp cid d).1 = st) ∧
    ((add_sale st p q sp bp cid d).2 = .ok () →
      ∀ r ∈ st.inventory, r.product = p → q ≤ r.stock) := by
  refine ⟨add_sale_stock_nonneg p q sp bp cid d (reach_stock_nonneg h), ?_, ?_⟩
  · intro r hr hlt
    cases hc : findCustomer st cid with
    | none => rw [add_sale_no_customer p q sp bp d hc]
    | some c => rw [add_sale_insufficient sp bp d hc hr hlt]
  · intro hok r hrmem hrp
    have hguard := add_sale_ok_guard hok
    simp only [List.any_eq_false, Bool.and_eq_true, beq_iff_eq,
      decide_eq_true_eq, not_and, not_lt] at hguard
    have := hguard r hrmem hrp
    omega

/-- C3 witness: on the reachable store with 10 Phones, an 11-unit sale
is rejected and keeps every stock nonnegative, and the accepted 3-unit
sale only proceeds because every Phone row held at least 3. -/
theorem add_sale_stock_invariant_witness :
    (∀ r ∈ (add_sale wReach "Phone" 11 20000 15000 1 "t1").1.inventory,
      0 ≤ r.stock) ∧
    ((add_sale wReach "Phone" 11 20000 15000 1 "t1").1 = wReach) ∧
    (∀ r ∈ wReach.inventory, r.product = "Phone" → (3 : Int) ≤ r.stock) := by
  have h1 := add_sale_stock_invariant wReach wReach_reachable "Phone" 11
    20000 15000 1 "t1"
  have h2 := add_sale_stock_invariant wReach wReach_reachable "Phone" 3
    20000 15000 1 "t1"
  refine ⟨h1.1, h1.2.1 ⟨1, "Phone", 10, "t0"⟩ (by decide) (by decide), ?_⟩
  exact h2.2.2 (by rfl)

/-- C4 counterexample: two add_inventory calls for Phone leave two
inventory rows for that product, and the lookup returns the stock of
the first row (10), not the most recently set value (2). -/
theorem add_inventory_not_upsert :
    (((add_inventory (add_inventory emptyStore "Phone" 10 "t0").1
        "Phone" 2 "t1").1.inventory.filter
        (fun r => r.product == "Phone")).length = 2) ∧
    ((findInvRow (add_inventory (add_inventory emptyStore "Phone" 10 "t0").1
        "Phone" 2 "t1").1 "Phone").map InvRow.stock = some 10) := by
  decide

/-- C4 amended: add_inventory rejects negative stock; with nonnegative
stock it always appends a fresh inventory row for the product, whether
or not one exists, so repeated calls accumulate duplicate rows and a
lookup keeps returning the first stored stock value. -/
theorem add_inventory_spec (st : Store) (p : String) (s : Int) (d : String) :
    (s < 0 → add_inventory st p s d = (st, false)) ∧
    (0 ≤ s → add_inventory st p s d =
      ({ st with
          inventory := st.inventory ++ [⟨st.nextInvId, p, s, d⟩],
          nextInvId := st.nextInvId + 1 }, true)) := by
  constructor
  · intro h
    simp [add_inventory, h]
  · intro h
    simp [add_inventory, not_lt.mpr h]

/-- C4 amended witness: a negative set is rejected, a nonnegative set
appends the row. -/
theorem add_inventory_spec_witness :
    add_inventory emptyStore "Phone" (-1) "t0" = (emptyStore, false) ∧
    add_inventory emptyStore "Phone" 10 "t0" =
      ({ emptyStore with
          inventory := emptyStore.inventory ++
            [⟨emptyStore.nextInvId, "Phone", 10, "t0"⟩],
          nextInvId := emptyStore.nextInvId + 1 }, true) :=
  ⟨(add_inventory_spec emptyStore "Phone" (-1) "t0").1 (by decide),
    (add_inventory_spec emptyStore "Phone" 10 "t0").2 (by decide)⟩

/-- C5 counterexample: the schema created by app.init_db declares
neither the UNIQUE constraint on customers.email nor the
CHECK(stock >= 0) constraint on inventory. -/
theorem init_db_app_missing_constraints :
    ((init_db_app []).any (fun t => t.name == "customers" &&
      t.cols.any (fun c => c.name == "email" && c.uniqueCol))) = false ∧
    ((init_db_app []).any (fun t => t.name == "inventory" &&
      t.cols.any (fun c => c.name == "stock" && c.checkNonneg))) = false := by
  decide

/-- C5 amended: both init_db variants idempotently create the three
tables if absent and a second run changes nothing; the schema created
by business_app.init_db enforces CHECK(stock >= 0) and UNIQUE email,
while the one created by app.init_db declares neither constraint. -/
theorem init_db_spec (db : List TableDef) :
    init_db_business (init_db_business db) = init_db_business db ∧
    init_db_app (init_db_app db) = init_db_app db ∧
    (["sales", "inventory", "customers"].all (fun n =>
      (init_db_business db).any (fun t => t.name == n))) = true ∧
    (["sales", "inventory", "customers"].all (fun n =>
      (init_db_app db).any (fun t => t.name == n))) = true ∧
    ((init_db_business []).any (fun t => t.name == "customers" &&
      t.cols.any (fun c => c.name == "email" && c.uniqueCol))) = true ∧
    ((init_db_business []).any (fun t => t.name == "inventory" &&
      t.cols.any (fun c => c.name == "stock" && c.checkNonneg))) = true := by
  refine ⟨init_db_business_idem db, init_db_app_idem db, ?_, ?_,
    by decide, by decide⟩
  · have hs : ((init_db_business db).any
        (fun t => t.name == "sales")) = true :=
      createTable_mono _ _ _ (createTable_mono _ _ _ (createTable_mem _ _))
    have hi : ((init_db_business db).any
        (fun t => t.name == "inventory")) = true :=
      createTable_mono _ _ _ (createTable_mem _ _)
    have hcu : ((init_db_business db).any
        (fun t => t.name == "customers")) = true :=
      createTable_mem _ _
    simp only [List.all_cons, List.all_nil, Bool.and_eq_true]
    exact ⟨hs, hi, hcu, trivial⟩
  · have hs : ((init_db_app db).any
        (fun t => t.name == "sales")) = true :=
      createTable_mono _ _ _ (createTable_mono _ _ _ (createTable_mem _ _))
    have hi : ((init_db_app db).any
        (fun t => t.name == "inventory")) = true :=
      createTable_mono _ _ _ (createTable_mem _ _)
    have hcu : ((init_db_app db).any
        (fun t => t.name == "customers")) = true :=
      createTable_mem _ _
    simp only [List.all_cons, List.all_nil, Bool.and_eq_true]
    exact ⟨hs, hi, hcu, trivial⟩

/-- C6: add_customer rejects an email that is already registered,
returning None and leaving the customer extent unchanged; otherwise it
appends exactly one customer record, returns its generated id and
leaves the other tables alone. -/
theorem add_customer_spec (st : Store) (n e : String) (o ia : Int) :
    ((∃ c ∈ st.customers, c.email = e) →
      add_customer st n e o ia = (st, none)) ∧
    ((∀ c ∈ st.customers, c.email ≠ e) →
      (add_customer st n e o ia).2 = some st.nextCustomerId ∧
      (add_customer st n e o ia).1.customers =
        st.customers ++ [⟨st.nextCustomerId, n, e, o, ia⟩] ∧
      (add_customer st n e o ia).1.sales = st.sales ∧
      (add_customer st n e o ia).1.inventory = st.inventory) := by
  constructor
  · rintro ⟨c, hc, he⟩
    have hany : (st.customers.any (fun c => c.email == e)) = true := by
      simp only [List.any_eq_true, beq_iff_eq]
      exact ⟨c, hc, he⟩
    simp [add_customer, hany]
  · intro h
    have hany : (st.customers.any (fun c => c.email == e)) = false := by
      simp only [List.any_eq_false, beq_iff_eq]
      exact h
    simp [add_customer, hany]

/-- C6 witness: a second registration of alice@shop.com is rejected
with the store unchanged, while a fresh email is appended and its new
id returned. -/
theorem add_customer_spec_witness :
    (add_customer wDup "Bob" "alice@shop.com" 0 1 = (wDup, none)) ∧
    ((add_customer wDup "Bob" "bob@shop.com" 0 1).2 = some wDup.nextCustomerId ∧
      (add_customer wDup "Bob" "bob@shop.com" 0 1).1.customers =
        wDup.customers ++ [⟨wDup.nextCustomerId, "Bob", "bob@shop.com", 0, 1⟩] ∧
      (add_customer wDup "Bob" "bob@shop.com" 0 1).1.sales = wDup.sales ∧
      (add_customer wDup "Bob" "bob@shop.com" 0 1).1.inventory =
        wDup.inventory) :=
  ⟨(add_customer_spec wDup "Bob" "alice@shop.com" 0 1).1 (by decide),
    (add_customer_spec wDup "Bob" "bob@shop.com" 0 1).2 (by decide)⟩

/-- C7: compute_metrics on empty sales and customer extents returns
with every KPI equal to zero; each division is guarded by its
positivity test, so no division is attempted. -/
theorem compute_metrics_empty :
    compute_metrics [] [] =
      { total_revenue := 0, avg_order_value := 0, total_quantity := 0,
        churn_rate := 0, total_customers := 0, profit_margin := 0 } := by
  rfl

/-- C8 counterexample: add_customer applies no validation to its orders
argument, so a core-operation run can create a customer whose orders
field is negative. -/
theorem add_customer_negative_orders :
    ((add_customer emptyStore "Mallory" "mallory@shop.com" (-5) 1).1.customers.map
      Customer.orders) = [-5] := by
  decide

/-- C8 amended: after creation the orders field is never decremented:
add_inventory leaves the customer table untouched, add_customer only
appends a record, a failing add_sale leaves the customers unchanged and
a successful add_sale increments by exactly 1 the orders of the selling
customer and changes no other record; non-negativity of orders holds
only when the creating call passed a non-negative initial value. -/
theorem orders_monotone_spec (st : Store) (p : String) (q : Int) (sp bp : ℚ)
    (cid : Nat) (d : String) (p2 : String) (s2 : Int) (d2 : String)
    (n e : String) (o ia : Int) :
    ((add_inventory st p2 s2 d2).1.customers = st.customers) ∧
    ((add_customer st n e o ia).1.customers = st.customers ∨
      (add_customer st n e o ia).1.customers =
        st.customers ++ [⟨st.nextCustomerId, n, e, o, ia⟩]) ∧
    ((add_sale st p q sp bp cid d).2 = .ok () →
      (add_sale st p q sp bp cid d).1.customers =
        st.customers.map (fun c =>
          if c.id == cid then { c with orders := c.orders + 1 } else c)) ∧
    ((add_sale st p q sp bp cid d).2 ≠ .ok () →
      (add_sale st p q sp bp cid d).1.customers = st.customers) := by
  refine ⟨?_, ?_, ?_, ?_⟩
  · unfold add_inventory
    split <;> rfl
  · unfold add_customer
    split
    · left
      rfl
    · right
      rfl
  · intro hok
    rw [add_sale_ok_state hok]
  · intro h
    rw [add_sale_error_state h]

/-- C8 amended witness: on the store with 10 Phones and customer 1, the
successful 3-unit sale bumps the orders of customer 1 by 1, and the
failing 11-unit sale leaves the customer table unchanged. -/
theorem orders_monotone_spec_witness :
    ((add_inventory wStore "TV" 4 "t2").1.customers = wStore.customers) ∧
    ((add_customer wStore "Bob" "bob@shop.com" 0 1).1.customers =
        wStore.customers ∨
      (add_customer wStore "Bob" "bob@shop.com" 0 1).1.customers =
        wStore.customers ++ [⟨wStore.nextCustomerId, "Bob", "bob@shop.com", 0, 1⟩]) ∧
    ((add_sale wStore "Phone" 3 20000 15000 1 "t1").1.customers =
      wStore.customers.map (fun c =>
        if c.id == 1 then { c with orders := c.orders + 1 } else c)) ∧
    ((add_sale wStore "Phone" 11 20000 15000 1 "t1").1.customers =
      wStore.customers) := by
  have h1 := orders_monotone_spec wStore "Phone" 3 20000 15000 1 "t1"
    "TV" 4 "t2" "Bob" "bob@shop.com" 0 1
  have h2 := orders_monotone_spec wStore "Phone" 11 20000 15000 1 "t1"
    "TV" 4 "t2" "Bob" "bob@shop.com" 0 1
  refine ⟨h1.1, h1.2.1, h1.2.2.1 (by rfl), h2.2.2.2 ?_⟩
  intro hcon
  have h3 := add_sale_ok_guard hcon
  simp only [List.any_eq_false, Bool.and_eq_true, beq_iff_eq,
    decide_eq_true_eq, not_and, not_lt] at h3
  have h4 := h3 ⟨1, "Phone", 10, "t0"⟩ (by decide) (by decide)
  exact absurd h4 (by decide)

/-- C9: the bulk sales import feeds every row to add_sale independently:
it produces exactly one boolean outcome per row in row order, and the
processing of the tail proceeds from the state left by the head row no
matter whether the head row succeeded or failed. -/
theorem import_sales_outcomes (st : Store) (row : SaleRow)
    (rows rest : List SaleRow) (d : String) :
    (import_sales st rows d).2.length = rows.length ∧
    import_sales st (row :: rest) d =
      ((import_sales (add_sale st row.product row.quantity row.selling_price
          row.buying_price row.customer_id d).1 rest d).1,
        okBool (add_sale st row.product row.quantity row.selling_price
          row.buying_price row.customer_id d).2 ::
        (import_sales (add_sale st row.product row.quantity row.selling_price
          row.buying_price row.customer_id d).1 rest d).2) := by
  constructor
  · induction rows generalizing st with
    | nil => rfl
    | cons r rs ih =>
        simp only [import_sales, List.length_cons]
        rw [ih]
  · rfl

/-- C10: add_sale never validates that the quantity is positive: on the
store with 5 Phones, a sale of quantity -2 passes the stock check,
records a sale row with quantity -2 and total selling price -200, bumps
the customer orders, and raises the stock from 5 to 7. -/
theorem add_sale_negative_quantity :
    (add_sale negQtyStore "Phone" (-2) 100 60 1 "t1").2 = .ok () ∧
    (add_sale negQtyStore "Phone" (-2) 100 60 1 "t1").1.inventory.map
      InvRow.stock = [7] ∧
    (add_sale negQtyStore "Phone" (-2) 100 60 1 "t1").1.sales.map
      Sale.quantity = [-2] ∧
    (add_sale negQtyStore "Phone" (-2) 100 60 1 "t1").1.sales.map
      Sale.total_selling_price = [-200] ∧
    (add_sale negQtyStore "Phone" (-2) 100 60 1 "t1").1.customers.map
      Customer.orders = [1] := by
  refine ⟨rfl, by decide, by decide, ?_, by decide⟩
  simp [add_sale, findCustomer, findInvRow, negQtyStore, List.find?]
  norm_num

end ECommerce
